import Mathlib

/-!
# Verification of the East Coast wind aggregation backend

Shallow embedding of `backend/app.py` (an east-coast ocean wind
aggregation service).  Python floats are modelled as exact rationals
(`ℚ`), instants on the timeline as integers (`ℤ`, seconds), fallible
operations as `Option`, and the HTTP endpoint's `try/except` wrapper as
`Except String`.  Network calls (`requests.get` inside `get_wind_data`)
are abstracted as a parameter `fetch : ℚ → ℚ → Option WindData`:
`none` models any per-point failure (caught by the broad `except` in
`get_wind_data`, which returns `None`).  Likewise Python's
`datetime.fromisoformat` is an external library call and is abstracted
as a parameter `fromiso : String → Option ℤ` (`none` models the
`ValueError` branch).  Everything else is translated line by line from
the source.
-/

namespace WindApp

/-! ## TemporalIntervalResolver: `parse_valid_time` (app.py lines 33-65)

The regular expression
`P(?:(?P<days>\d+)D)?(?:T(?:(?P<hours>\d+)H)?(?:(?P<minutes>\d+)M)?(?:(?P<seconds>\d+)S)?)?`
used with `fullmatch` is embedded as a deterministic recursive-descent
matcher: each optional group `(?:(\d+)X)?` consumes a maximal digit run
followed by the literal `X`, and consumes nothing when that fails
(greedy matching of `\d+` followed by a mandatory non-digit letter
never benefits from backtracking, and digits left unconsumed by a
skipped group can never be consumed by any later part of the pattern,
so the committed parser accepts exactly the language of the regex). -/

/-- Numeric value of a digit run, as Python's `int()` of the matched group. -/
def digits_to_nat (ds : List Char) : ℕ :=
  ds.foldl (fun n c => 10 * n + (c.toNat - 48)) 0

/-- One optional regex group `(?:(\d+)X)?` for a given letter `X`:
returns the captured number (or `none` when the group did not
participate) together with the remaining input. -/
def try_num_letter (letter : Char) (cs : List Char) : Option ℕ × List Char :=
  let ds := cs.takeWhile Char.isDigit
  match ds with
  | [] => (none, cs)
  | _ :: _ =>
    match cs.drop ds.length with
    | c :: rest => if c = letter then (some (digits_to_nat ds), rest) else (none, cs)
    | [] => (none, cs)

/-- The four named groups of `VALID_TIME_DURATION` (app.py lines 33-36);
`none` means the group did not participate in the match. -/
structure DurationGroups where
  days : Option ℕ
  hours : Option ℕ
  minutes : Option ℕ
  seconds : Option ℕ
  deriving DecidableEq, Repr

/-- `VALID_TIME_DURATION.fullmatch(duration_str)` (app.py line 50). -/
def valid_time_duration_fullmatch (s : String) : Option DurationGroups :=
  match s.toList with
  | 'P' :: r0 =>
    let dr := try_num_letter 'D' r0
    match dr.2 with
    | 'T' :: r2 =>
      let hr := try_num_letter 'H' r2
      let mr := try_num_letter 'M' hr.2
      let sr := try_num_letter 'S' mr.2
      if sr.2 = [] then some ⟨dr.1, hr.1, mr.1, sr.1⟩ else none
    | r1 => if r1 = [] then some ⟨dr.1, none, none, none⟩ else none
  | _ => none

/-- Total length of the decoded `timedelta` (app.py lines 54-60), in
seconds; absent groups count as zero, matching
`int(value) if value else 0`. -/
def duration_total_seconds (g : DurationGroups) : ℕ :=
  86400 * g.days.getD 0 + 3600 * g.hours.getD 0 + 60 * g.minutes.getD 0 + g.seconds.getD 0

/-- Python `start_str.replace("Z", "+00:00")` (app.py line 46): the
pattern is the single character `Z`, so the replacement maps each `Z`
to the six characters `+00:00`. -/
def replace_Z (s : String) : String :=
  String.mk (s.toList.foldr (fun c acc => (if c = 'Z' then "+00:00".toList else [c]) ++ acc) [])

/-- Python `valid_time.split("/", 1)` fused with the
`"/" not in valid_time` guard (app.py lines 41-44): `none` when the
string has no `/` (or is empty), otherwise the part before the first
`/` and everything after it. -/
def split_valid_time (vt : String) : Option (String × String) :=
  let cs := vt.toList
  match cs.dropWhile (fun c => c ≠ '/') with
  | [] => none
  | _ :: tail => some (String.mk (cs.takeWhile (fun c => c ≠ '/')), String.mk tail)

/-- `parse_valid_time` (app.py lines 39-65), parameterised by the
external timestamp parser `fromiso` (Python
`datetime.fromisoformat`, whose `ValueError` is `none`).  Returns the
pair `(start, end)` of optional instants exactly as the Python
function returns `(start_dt, end_dt)` with `None` components. -/
def parse_valid_time (fromiso : String → Option ℤ) (valid_time : String) :
    Option ℤ × Option ℤ :=
  match split_valid_time valid_time with
  | none => (none, none)
  | some (start_str, duration_str) =>
    match fromiso (replace_Z start_str) with
    | none => (none, none)
    | some start_dt =>
      match valid_time_duration_fullmatch duration_str with
      | none => (some start_dt, none)
      | some g =>
        if duration_total_seconds g = 0 then (none, none)
        else (some start_dt, some (start_dt + (duration_total_seconds g : ℤ)))

/-! ## `find_current_value` (app.py lines 137-144) -/

/-- One entry of an NWS time series: `{validTime: string, value: number|null}`;
`item.get('validTime', '')` defaults to the empty string, so `validTime`
is total here. -/
structure TimeSeriesItem where
  validTime : String
  value : Option ℚ
  deriving DecidableEq, Repr

/-- Whether an entry's resolved interval contains `now`
(`start_dt <= now < end_dt` after the `not start_dt or not end_dt`
skip, app.py lines 139-142). -/
def entry_matches (fromiso : String → Option ℤ) (now : ℤ) (item : TimeSeriesItem) : Bool :=
  match parse_valid_time fromiso item.validTime with
  | (some s, some e) => decide (s ≤ now ∧ now < e)
  | _ => false

/-- `find_current_value` (app.py lines 137-144): scan the entries in
order, skip those whose interval lacks a start or an end, and return
the `value` of the first entry whose interval contains `now`. -/
def find_current_value (fromiso : String → Option ℤ) (now : ℤ) :
    List TimeSeriesItem → Option ℚ
  | [] => none
  | item :: rest =>
    match parse_valid_time fromiso item.validTime with
    | (some s, some e) =>
      if s ≤ now ∧ now < e then item.value else find_current_value fromiso now rest
    | _ => find_current_value fromiso now rest

/-! ## UnitConverter: `to_knots` (app.py lines 68-87) -/

/-- `unit_multipliers.get(unit_code)` (app.py lines 73-82); the key may
be the absent `uom` field (`none`), which is not in the dict. -/
def unit_multipliers_get : Option String → Option ℚ
  | some "wmoUnit:km_h-1" => some 0.539957
  | some "wmoUnit:m_s-1" => some 1.94384
  | some "wmoUnit:knot" => some 1.0
  | some "unit:km_h" => some 0.539957
  | some "unit:m_s" => some 1.94384
  | some "unit:kt" => some 1.0
  | _ => none

/-- `to_knots` (app.py lines 68-87). -/
def to_knots (speed_value : Option ℚ) (unit_code : Option String) : Option ℚ :=
  match speed_value with
  | none => none
  | some v =>
    match unit_multipliers_get unit_code with
    | none => some v
    | some m => some (v * m)

/-- A sample instantiation of the abstract `fromiso` parameter, used to
exercise the theorems on concrete inputs: it recognises exactly the one
ISO timestamp appearing in the spec's examples (as a Unix epoch). -/
def fromiso_sample : String → Option ℤ := fun s =>
  if s = "2024-01-01T00:00:00+00:00" then some 1704067200 else none

/-! ## Helper lemmas about `parse_valid_time` -/

/-- A concrete resolved interval arises exactly from the last branch of
`parse_valid_time`: successful split, successful timestamp parse,
successful duration match, nonzero duration. -/
theorem parse_concrete (fromiso : String → Option ℤ) (vt : String) (s e : ℤ)
    (h : parse_valid_time fromiso vt = (some s, some e)) :
    ∃ a b g, split_valid_time vt = some (a, b) ∧ fromiso (replace_Z a) = some s ∧
      valid_time_duration_fullmatch b = some g ∧ duration_total_seconds g ≠ 0 ∧
      e = s + (duration_total_seconds g : ℤ) := by
  unfold parse_valid_time at h
  split at h
  · simp_all
  · rename_i a b heq
    split at h
    · simp_all
    · rename_i s0 hfi
      split at h
      · simp_all
      · rename_i g hfm
        split at h
        · simp_all
        · rename_i hz
          have h1 : s0 = s := by simp_all
          have h2 : e = s + (duration_total_seconds g : ℤ) := by
            subst h1; simp_all
          exact ⟨a, b, g, heq, h1 ▸ hfi, hfm, hz, h2⟩

/-- Any concrete resolved interval has `start < end`. -/
theorem parse_lt (fromiso : String → Option ℤ) (vt : String) (s e : ℤ)
    (h : parse_valid_time fromiso vt = (some s, some e)) : s < e := by
  obtain ⟨a, b, g, _, _, _, hz, he⟩ := parse_concrete fromiso vt s e h
  omega

/-- A start timestamp that fails to parse yields `(None, None)`. -/
theorem parse_fromiso_none (fromiso : String → Option ℤ) (vt a b : String)
    (h1 : split_valid_time vt = some (a, b)) (h2 : fromiso (replace_Z a) = none) :
    parse_valid_time fromiso vt = (none, none) := by
  simp only [parse_valid_time, h1, h2]

/-- A duration-grammar mismatch with a valid timestamp yields an
open-ended interval `(start, None)`. -/
theorem parse_grammar_mismatch (fromiso : String → Option ℤ) (vt a b : String) (s : ℤ)
    (h1 : split_valid_time vt = some (a, b)) (h2 : fromiso (replace_Z a) = some s)
    (h3 : valid_time_duration_fullmatch b = none) :
    parse_valid_time fromiso vt = (some s, none) := by
  simp only [parse_valid_time, h1, h2, h3]

/-- A duration that decodes to zero total length yields `(None, None)`. -/
theorem parse_zero_duration (fromiso : String → Option ℤ) (vt a b : String)
    (g : DurationGroups) (h1 : split_valid_time vt = some (a, b))
    (h2 : valid_time_duration_fullmatch b = some g) (h3 : duration_total_seconds g = 0) :
    parse_valid_time fromiso vt = (none, none) := by
  simp only [parse_valid_time, h1, h2]
  cases hfi : fromiso (replace_Z a) with
  | none => simp
  | some s0 => simp [h3]

/-- Converse of `parse_concrete`: the successful configuration does
produce a concrete interval. -/
theorem parse_concrete_of (fromiso : String → Option ℤ) (vt a b : String) (s : ℤ)
    (g : DurationGroups) (h1 : split_valid_time vt = some (a, b))
    (h2 : fromiso (replace_Z a) = some s) (h3 : valid_time_duration_fullmatch b = some g)
    (h4 : duration_total_seconds g ≠ 0) :
    parse_valid_time fromiso vt = (some s, some (s + (duration_total_seconds g : ℤ))) := by
  simp only [parse_valid_time, h1, h2, h3]
  simp [h4]

/-! ## Helper lemmas about `find_current_value` -/

/-- The scanning loop of `find_current_value` returns the `value` of
the first entry satisfying `entry_matches`. -/
theorem find_eq_find (fromiso : String → Option ℤ) (now : ℤ) (l : List TimeSeriesItem) :
    find_current_value fromiso now l =
      (List.find? (entry_matches fromiso now) l).bind TimeSeriesItem.value := by
  induction l with
  | nil => rfl
  | cons item rest ih =>
    by_cases hm : entry_matches fromiso now item = true
    · rw [List.find?_cons_of_pos _ hm]
      unfold entry_matches at hm
      unfold find_current_value
      split
      · rename_i s e hp
        rw [hp] at hm
        simp at hm
        simp [hm]
      · rename_i hp
        exfalso
        revert hm
        split <;> simp_all
    · rw [List.find?_cons_of_neg _ hm]
      unfold entry_matches at hm
      unfold find_current_value
      split
      · rename_i s e hp
        rw [hp] at hm
        simp only [decide_eq_true_eq] at hm
        rw [if_neg hm]
        exact ih
      · exact ih

/-- `entry_matches` holds exactly on the half-open interval. -/
theorem entry_matches_iff (fromiso : String → Option ℤ) (now : ℤ) (item : TimeSeriesItem)
    (s e : ℤ) (hp : parse_valid_time fromiso item.validTime = (some s, some e)) :
    entry_matches fromiso now item = true ↔ s ≤ now ∧ now < e := by
  unfold entry_matches
  rw [hp]
  simp

/-- An entry whose interval lacks a concrete end is skipped by the scan. -/
theorem find_skip_no_end (fromiso : String → Option ℤ) (now : ℤ) (vt : String)
    (v : Option ℚ) (rest : List TimeSeriesItem)
    (hend : (parse_valid_time fromiso vt).2 = none) :
    find_current_value fromiso now (⟨vt, v⟩ :: rest) = find_current_value fromiso now rest := by
  have hm : entry_matches fromiso now ⟨vt, v⟩ = false := by
    unfold entry_matches
    split
    · rename_i s e hp
      rw [hp] at hend
      simp at hend
    · rfl
  rw [find_eq_find, find_eq_find, List.find?_cons_of_neg _ (by simp [hm])]

/-! ## Claim theorems: temporal resolution -/

/-- C1: for every series of time-series entries and every reference
instant, `find_current_value` scans entries in series order and returns
the value of the first entry whose resolved interval satisfies
`start ≤ reference < end` (start-inclusive, end-exclusive); a reference
exactly equal to an entry's end does not match that entry, a reference
exactly equal to its start does, and if no entry matches the result is
absent. -/
theorem find_current_value_first_match (fromiso : String → Option ℤ) (now : ℤ)
    (l : List TimeSeriesItem) :
    find_current_value fromiso now l =
      (List.find? (entry_matches fromiso now) l).bind TimeSeriesItem.value ∧
    (∀ item s e, parse_valid_time fromiso item.validTime = (some s, some e) →
      (entry_matches fromiso now item = true ↔ s ≤ now ∧ now < e) ∧
      entry_matches fromiso e item = false ∧
      entry_matches fromiso s item = true) ∧
    ((∀ item ∈ l, entry_matches fromiso now item = false) →
      find_current_value fromiso now l = none) := by
  refine ⟨find_eq_find fromiso now l, ?_, ?_⟩
  · intro item s e hp
    refine ⟨entry_matches_iff fromiso now item s e hp, ?_, ?_⟩
    · rw [Bool.eq_false_iff]
      intro hc
      rw [entry_matches_iff fromiso e item s e hp] at hc
      exact absurd hc.2 (lt_irrefl e)
    · rw [entry_matches_iff fromiso s item s e hp]
      exact ⟨le_refl s, parse_lt fromiso item.validTime s e hp⟩
  · intro hall
    rw [find_eq_find fromiso now l]
    rw [List.find?_eq_none.mpr (by intro x hx; simp [hall x hx])]
    rfl

/-- Concrete instance of `find_current_value_first_match`: the series
entry `2024-01-01T00:00:00Z/PT6H` is selected at its start instant and
not selected at its end instant. -/
theorem find_current_value_first_match_witness :
    find_current_value fromiso_sample 1704067200
      [⟨"2024-01-01T00:00:00Z/PT6H", some 5⟩] = some 5 ∧
    find_current_value fromiso_sample 1704088800
      [⟨"2024-01-01T00:00:00Z/PT6H", some 5⟩] = none := by
  constructor
  · exact (find_current_value_first_match fromiso_sample 1704067200 _).1.trans (by decide)
  · exact (find_current_value_first_match fromiso_sample 1704088800 _).2.2 (by decide)

/-- C2: `parse_valid_time` yields a concrete (usable) interval exactly
when the string splits on `/`, the start timestamp parses, the duration
grammar matches and the decoded duration is nonzero; a failed timestamp
yields `(None, None)`, a duration-grammar mismatch with a valid
timestamp yields an open-ended `(start, None)`, a zero decoded duration
yields `(None, None)`, and an entry without a concrete end is never
selected by `find_current_value`. -/
theorem parse_valid_time_unusable_cases (fromiso : String → Option ℤ) (vt : String) :
    ((∃ s e : ℤ, parse_valid_time fromiso vt = (some s, some e)) ↔
      ∃ a b s g, split_valid_time vt = some (a, b) ∧ fromiso (replace_Z a) = some s ∧
        valid_time_duration_fullmatch b = some g ∧ duration_total_seconds g ≠ 0) ∧
    (∀ a b, split_valid_time vt = some (a, b) → fromiso (replace_Z a) = none →
      parse_valid_time fromiso vt = (none, none)) ∧
    (∀ a b s, split_valid_time vt = some (a, b) → fromiso (replace_Z a) = some s →
      valid_time_duration_fullmatch b = none →
      parse_valid_time fromiso vt = (some s, none)) ∧
    (∀ a b g, split_valid_time vt = some (a, b) → valid_time_duration_fullmatch b = some g →
      duration_total_seconds g = 0 → parse_valid_time fromiso vt = (none, none)) ∧
    (∀ (now : ℤ) (v : Option ℚ) (rest : List TimeSeriesItem),
      (parse_valid_time fromiso vt).2 = none →
      find_current_value fromiso now (⟨vt, v⟩ :: rest) =
        find_current_value fromiso now rest) := by
  refine ⟨⟨?_, ?_⟩, ?_, ?_, ?_, ?_⟩
  · rintro ⟨s, e, h⟩
    obtain ⟨a, b, g, h1, h2, h3, h4, _⟩ := parse_concrete fromiso vt s e h
    exact ⟨a, b, s, g, h1, h2, h3, h4⟩
  · rintro ⟨a, b, s, g, h1, h2, h3, h4⟩
    exact ⟨s, s + (duration_total_seconds g : ℤ), parse_concrete_of fromiso vt a b s g h1 h2 h3 h4⟩
  · exact fun a b h1 h2 => parse_fromiso_none fromiso vt a b h1 h2
  · exact fun a b s h1 h2 h3 => parse_grammar_mismatch fromiso vt a b s h1 h2 h3
  · exact fun a b g h1 h2 h3 => parse_zero_duration fromiso vt a b g h1 h2 h3
  · exact fun now v rest hend => find_skip_no_end fromiso now vt v rest hend

/-- Concrete instances of `parse_valid_time_unusable_cases`: a
duration-grammar mismatch with a valid timestamp yields an open-ended
interval, and an unparseable start timestamp yields invalid. -/
theorem parse_valid_time_unusable_cases_witness :
    parse_valid_time fromiso_sample "2024-01-01T00:00:00Z/XYZ" = (some 1704067200, none) ∧
    parse_valid_time fromiso_sample "garbage/PT6H" = (none, none) := by
  constructor
  · exact (parse_valid_time_unusable_cases fromiso_sample
      "2024-01-01T00:00:00Z/XYZ").2.2.1 "2024-01-01T00:00:00Z" "XYZ" 1704067200
      (by decide) (by decide) (by decide)
  · exact (parse_valid_time_unusable_cases fromiso_sample
      "garbage/PT6H").2.1 "garbage" "PT6H" (by decide) (by decide)

/-- C8: whenever `parse_valid_time` returns a concrete resolved
interval, `end > start`; and a decoded duration of zero never produces
a concrete interval (it yields `(None, None)`). -/
theorem resolved_interval_end_gt_start (fromiso : String → Option ℤ) (vt : String) :
    (∀ s e : ℤ, parse_valid_time fromiso vt = (some s, some e) → s < e) ∧
    (∀ a b g, split_valid_time vt = some (a, b) → valid_time_duration_fullmatch b = some g →
      duration_total_seconds g = 0 → parse_valid_time fromiso vt = (none, none)) :=
  ⟨fun s e h => parse_lt fromiso vt s e h,
   fun a b g h1 h2 h3 => parse_zero_duration fromiso vt a b g h1 h2 h3⟩

/-- Concrete instance of `resolved_interval_end_gt_start`: the spec's
zero-duration example `2024-01-01T00:00:00Z/P0D` is invalid. -/
theorem resolved_interval_end_gt_start_witness :
    parse_valid_time fromiso_sample "2024-01-01T00:00:00Z/P0D" = (none, none) :=
  (resolved_interval_end_gt_start fromiso_sample "2024-01-01T00:00:00Z/P0D").2
    "2024-01-01T00:00:00Z" "P0D" ⟨some 0, none, none, none⟩ (by decide) (by decide) (by decide)

/-! ## Claim theorem: unit conversion -/

/-- C3: `to_knots` of a null value is null for any unit code; a value
tagged with a known km/h, m/s or knot unit code (under either provider
naming scheme) is multiplied by 0.539957, 1.94384 or 1.0 respectively;
an unrecognized or missing unit code passes the value through
unchanged. -/
theorem to_knots_spec (v : ℚ) :
    (∀ u, to_knots none u = none) ∧
    (∀ u m, unit_multipliers_get u = some m → to_knots (some v) u = some (v * m)) ∧
    unit_multipliers_get (some "wmoUnit:km_h-1") = some 0.539957 ∧
    unit_multipliers_get (some "wmoUnit:m_s-1") = some 1.94384 ∧
    unit_multipliers_get (some "wmoUnit:knot") = some 1.0 ∧
    unit_multipliers_get (some "unit:km_h") = some 0.539957 ∧
    unit_multipliers_get (some "unit:m_s") = some 1.94384 ∧
    unit_multipliers_get (some "unit:kt") = some 1.0 ∧
    (∀ u, unit_multipliers_get u = none → to_knots (some v) u = some v) := by
  refine ⟨fun u => rfl, ?_, rfl, rfl, rfl, rfl, rfl, rfl, ?_⟩
  · intro u m h
    unfold to_knots
    rw [h]
  · intro u h
    unfold to_knots
    rw [h]

/-- Concrete instances of `to_knots_spec`: the spec's examples
`toKnots(10, "wmoUnit:m_s-1") = 19.4384`, pass-through of an unknown
code, and null propagation. -/
theorem to_knots_spec_witness :
    to_knots (some 10) (some "wmoUnit:m_s-1") = some 19.4384 ∧
    to_knots (some 10) (some "unknown-code") = some 10 ∧
    to_knots none (some "wmoUnit:m_s-1") = none := by
  refine ⟨?_, ?_, (to_knots_spec 10).1 (some "wmoUnit:m_s-1")⟩
  · have h := (to_knots_spec 10).2.1 (some "wmoUnit:m_s-1") 1.94384 rfl
    rw [h]
    norm_num
  · exact (to_knots_spec 10).2.2.2.2.2.2.2.2 (some "unknown-code") (by decide)

/-! ## GridGenerator: `create_ocean_grid` (app.py lines 27-31, 89-111)

The cosine of the latitude (Python `math.cos(math.radians(lat))`) is an
external transcendental computation and is abstracted as a parameter
`cosd : ℚ → ℚ`.  Python float division raises `ZeroDivisionError` on a
zero divisor, modelled as `none`.  The two `while` loops are embedded
as fuel-indexed recursion (the theorems hold for every fuel, and the
real run is the instance with sufficiently large fuel). -/

/-- `EAST_COAST_BOUNDS` (app.py lines 17-22): north 45.0 (Maine),
south 24.0 (Florida), west -82.0, east -65.0 (offshore); the float
literals have these exact integer values. -/
def BOUNDS_NORTH : ℚ := 45
def BOUNDS_SOUTH : ℚ := 24
def BOUNDS_WEST : ℚ := -82
def BOUNDS_EAST : ℚ := -65

/-- Python float division: `ZeroDivisionError` on a zero divisor is
modelled as `none`. -/
def pydiv (a b : ℚ) : Option ℚ :=
  if b = 0 then none else some (a / b)

/-- `km_to_deg_lat` (app.py lines 27-28); the divisor is the nonzero
constant `111.32`, so the division is total. -/
def km_to_deg_lat (km : ℚ) : ℚ :=
  km / 111.32

/-- `km_to_deg_lon` (app.py lines 30-31): `km / (111.32 * cos(radians(lat)))`,
with Python's `ZeroDivisionError` surfaced as `none`. -/
def km_to_deg_lon (cosd : ℚ → ℚ) (km lat : ℚ) : Option ℚ :=
  pydiv km (111.32 * cosd lat)

/-- The inner `while current_lon <= east` loop of `create_ocean_grid`
(app.py lines 102-107) for one latitude row: append `(lat, lon)` when
the ocean predicate `lon < -75 or (lat > 35 and lon < -70)` holds, then
advance by `lon_step`. -/
def ocean_grid_row (lat lon_step east : ℚ) : ℚ → ℕ → List (ℚ × ℚ)
  | _, 0 => []
  | lon, fuel + 1 =>
    if lon ≤ east then
      (if lon < -75 ∨ (35 < lat ∧ lon < -70) then [(lat, lon)] else []) ++
        ocean_grid_row lat lon_step east (lon + lon_step) fuel
    else []

/-- The outer `while current_lat <= north` loop of `create_ocean_grid`
(app.py lines 98-108): per row, recompute `lon_step` from the latitude,
run the row from `west`, then advance by `lat_step`.  A
`ZeroDivisionError` in `km_to_deg_lon` propagates as `none`. -/
def ocean_grid_loop (cosd : ℚ → ℚ) (north west east lat_step : ℚ) (row_fuel : ℕ) :
    ℚ → ℕ → Option (List (ℚ × ℚ))
  | _, 0 => some []
  | lat, fuel + 1 =>
    if lat ≤ north then
      match km_to_deg_lon cosd 10 lat with
      | none => none
      | some lon_step =>
        match ocean_grid_loop cosd north west east lat_step row_fuel (lat + lat_step) fuel with
        | none => none
        | some rest => some (ocean_grid_row lat lon_step east west row_fuel ++ rest)
    else some []

/-- `create_ocean_grid` (app.py lines 89-111) with `grid_spacing_km = 10`:
latitude from `south` while `≤ north` with step `km_to_deg_lat 10`,
longitude from `west` while `≤ east` with the latitude-corrected step. -/
def create_ocean_grid (cosd : ℚ → ℚ) (lat_fuel row_fuel : ℕ) : Option (List (ℚ × ℚ)) :=
  ocean_grid_loop cosd BOUNDS_NORTH BOUNDS_WEST BOUNDS_EAST (km_to_deg_lat 10) row_fuel
    BOUNDS_SOUTH lat_fuel

/-! ## Helper lemmas about the grid loops -/

/-- Everything a row element satisfies: its latitude is the row's, its
longitude is at most `east`, it satisfies the ocean inclusion
predicate, and (for a nonnegative step) its longitude is at least the
current loop position. -/
theorem row_mem (lat lon_step east : ℚ) :
    ∀ (fuel : ℕ) (lon : ℚ) (p : ℚ × ℚ), p ∈ ocean_grid_row lat lon_step east lon fuel →
      p.1 = lat ∧ p.2 ≤ east ∧ (p.2 < -75 ∨ (35 < lat ∧ p.2 < -70)) ∧
      (0 ≤ lon_step → lon ≤ p.2) := by
  intro fuel
  induction fuel with
  | zero => intro lon p hp; simp [ocean_grid_row] at hp
  | succ n ih =>
    intro lon p hp
    unfold ocean_grid_row at hp
    split at hp
    · rename_i hle
      rcases List.mem_append.mp hp with h | h
      · split at h
        · rename_i hpred
          simp at h
          subst h
          exact ⟨rfl, hle, hpred, fun _ => le_refl _⟩
        · simp at h
      · obtain ⟨h1, h2, h3, h4⟩ := ih (lon + lon_step) p h
        exact ⟨h1, h2, h3, fun hs => le_trans (by linarith) (h4 hs)⟩
    · simp at hp

/-- With a positive longitude step, a row's longitudes strictly
increase. -/
theorem row_pairwise (lat lon_step east : ℚ) (hls : 0 < lon_step) :
    ∀ (fuel : ℕ) (lon : ℚ),
      List.Pairwise (fun a b : ℚ × ℚ => a.2 < b.2)
        (ocean_grid_row lat lon_step east lon fuel) := by
  intro fuel
  induction fuel with
  | zero => intro lon; simp [ocean_grid_row]
  | succ n ih =>
    intro lon
    unfold ocean_grid_row
    split
    · rw [List.pairwise_append]
      refine ⟨?_, ih (lon + lon_step), ?_⟩
      · split <;> simp
      · intro a ha b hb
        have hb' := (row_mem lat lon_step east n (lon + lon_step) b hb).2.2.2 hls.le
        split at ha
        · simp at ha
          subst ha
          simp only
          linarith
        · simp at ha
    · simp

/-- A positive cosine makes `km_to_deg_lon` succeed with a positive
step. -/
theorem lon_step_pos (cosd : ℚ → ℚ) (lat : ℚ) (hc : 0 < cosd lat) :
    ∃ ls, km_to_deg_lon cosd 10 lat = some ls ∧ 0 < ls := by
  have hd : (0:ℚ) < 111.32 * cosd lat := by
    have : (0:ℚ) < 111.32 := by norm_num
    positivity
  refine ⟨10 / (111.32 * cosd lat), ?_, by positivity⟩
  simp [km_to_deg_lon, pydiv, ne_of_gt hd]

/-- All points emitted by the outer loop lie in the rectangle
`[lat, north] × [west, east]`, provided the cosine is positive on the
latitudes visited. -/
theorem loop_mem (cosd : ℚ → ℚ) (north west east lat_step : ℚ) (row_fuel : ℕ)
    (hstep : 0 < lat_step) :
    ∀ (fuel : ℕ) (lat : ℚ) (pts : List (ℚ × ℚ)),
      (∀ l, lat ≤ l → l ≤ north → 0 < cosd l) →
      ocean_grid_loop cosd north west east lat_step row_fuel lat fuel = some pts →
      ∀ p ∈ pts, lat ≤ p.1 ∧ p.1 ≤ north ∧ west ≤ p.2 ∧ p.2 ≤ east := by
  intro fuel
  induction fuel with
  | zero =>
    intro lat pts _ h p hp
    simp [ocean_grid_loop] at h
    subst h
    simp at hp
  | succ n ih =>
    intro lat pts hc h p hp
    unfold ocean_grid_loop at h
    split at h
    · rename_i hle
      obtain ⟨ls, hls, hpos⟩ := lon_step_pos cosd lat (hc lat (le_refl lat) hle)
      rw [hls] at h
      cases hrec : ocean_grid_loop cosd north west east lat_step row_fuel (lat + lat_step) n with
      | none => rw [hrec] at h; simp at h
      | some rest =>
        rw [hrec] at h
        simp at h
        subst h
        rcases List.mem_append.mp hp with hr | hr
        · obtain ⟨h1, h2, _, h4⟩ := row_mem lat ls east row_fuel west p hr
          exact ⟨le_of_eq h1.symm, h1 ▸ hle, h4 hpos.le, h2⟩
        · have hc' : ∀ l, lat + lat_step ≤ l → l ≤ north → 0 < cosd l :=
            fun l h1 h2 => hc l (by linarith) h2
          obtain ⟨h1, h2, h3, h4⟩ := ih (lat + lat_step) rest hc' hrec p hr
          exact ⟨by linarith, h2, h3, h4⟩
    · simp at h
      subst h
      simp at hp

/-- Every point emitted by the outer loop satisfies the hard-coded
ocean inclusion predicate (no positivity assumptions needed). -/
theorem loop_pred (cosd : ℚ → ℚ) (north west east lat_step : ℚ) (row_fuel : ℕ) :
    ∀ (fuel : ℕ) (lat : ℚ) (pts : List (ℚ × ℚ)),
      ocean_grid_loop cosd north west east lat_step row_fuel lat fuel = some pts →
      ∀ p ∈ pts, p.2 < -75 ∨ (35 < p.1 ∧ p.2 < -70) := by
  intro fuel
  induction fuel with
  | zero =>
    intro lat pts h p hp
    simp [ocean_grid_loop] at h
    subst h
    simp at hp
  | succ n ih =>
    intro lat pts h p hp
    unfold ocean_grid_loop at h
    split at h
    · cases hls : km_to_deg_lon cosd 10 lat with
      | none => rw [hls] at h; simp at h
      | some ls =>
        rw [hls] at h
        cases hrec : ocean_grid_loop cosd north west east lat_step row_fuel (lat + lat_step) n with
        | none => rw [hrec] at h; simp at h
        | some rest =>
          rw [hrec] at h
          simp at h
          subst h
          rcases List.mem_append.mp hp with hr | hr
          · obtain ⟨h1, _, h3, _⟩ := row_mem lat ls east row_fuel west p hr
            rw [← h1] at h3
            exact h3
          · exact ih (lat + lat_step) rest hrec p hr
    · simp at h
      subst h
      simp at hp

/-- The emitted sequence is strictly increasing in the lexicographic
(latitude, longitude) order: rows have strictly increasing latitudes
and, within a row, strictly increasing longitudes. -/
theorem loop_pairwise (cosd : ℚ → ℚ) (north west east lat_step : ℚ) (row_fuel : ℕ)
    (hstep : 0 < lat_step) :
    ∀ (fuel : ℕ) (lat : ℚ) (pts : List (ℚ × ℚ)),
      (∀ l, lat ≤ l → l ≤ north → 0 < cosd l) →
      ocean_grid_loop cosd north west east lat_step row_fuel lat fuel = some pts →
      List.Pairwise (fun a b : ℚ × ℚ => a.1 < b.1 ∨ (a.1 = b.1 ∧ a.2 < b.2)) pts := by
  intro fuel
  induction fuel with
  | zero =>
    intro lat pts _ h
    simp [ocean_grid_loop] at h
    subst h
    simp
  | succ n ih =>
    intro lat pts hc h
    unfold ocean_grid_loop at h
    split at h
    · rename_i hle
      obtain ⟨ls, hls, hpos⟩ := lon_step_pos cosd lat (hc lat (le_refl lat) hle)
      rw [hls] at h
      cases hrec : ocean_grid_loop cosd north west east lat_step row_fuel (lat + lat_step) n with
      | none => rw [hrec] at h; simp at h
      | some rest =>
        rw [hrec] at h
        simp at h
        subst h
        have hc' : ∀ l, lat + lat_step ≤ l → l ≤ north → 0 < cosd l :=
          fun l h1 h2 => hc l (by linarith) h2
        rw [List.pairwise_append]
        refine ⟨?_, ih (lat + lat_step) rest hc' hrec, ?_⟩
        · refine (row_pairwise lat ls east hpos row_fuel west).imp_of_mem ?_
          intro a b ha hb hab
          right
          have h1 := (row_mem lat ls east row_fuel west a ha).1
          have h2 := (row_mem lat ls east row_fuel west b hb).1
          exact ⟨h1.trans h2.symm, hab⟩
        · intro a ha b hb
          left
          have h1 := (row_mem lat ls east row_fuel west a ha).1
          have h2 := (loop_mem cosd north west east lat_step row_fuel hstep n
            (lat + lat_step) rest hc' hrec b hb).1
          rw [h1]
          linarith
    · simp at h
      subst h
      simp

/-! ## Claim theorems: grid generation -/

/-- C7: the grid generator is deterministic, every coordinate it emits
lies within the bounding region (`south ≤ lat ≤ north`,
`west ≤ lon ≤ east`), and the emitted sequence contains no duplicate
coordinates.  The cosine factor is assumed positive on the latitude
band actually visited (the spec requires callers to stay away from the
poles). -/
theorem ocean_grid_bounds_nodup (cosd : ℚ → ℚ) (lat_fuel row_fuel : ℕ)
    (pts : List (ℚ × ℚ)) (hc : ∀ l, 24 ≤ l → l ≤ 45 → 0 < cosd l)
    (h : create_ocean_grid cosd lat_fuel row_fuel = some pts) :
    (∀ p ∈ pts, 24 ≤ p.1 ∧ p.1 ≤ 45 ∧ -82 ≤ p.2 ∧ p.2 ≤ -65) ∧
    pts.Nodup ∧
    (∀ pts', create_ocean_grid cosd lat_fuel row_fuel = some pts' → pts' = pts) := by
  have hstep : (0:ℚ) < km_to_deg_lat 10 := by norm_num [km_to_deg_lat]
  have h' : ocean_grid_loop cosd 45 (-82) (-65) (km_to_deg_lat 10) row_fuel 24 lat_fuel =
      some pts := by
    simpa [create_ocean_grid, BOUNDS_NORTH, BOUNDS_SOUTH, BOUNDS_WEST, BOUNDS_EAST] using h
  refine ⟨loop_mem cosd 45 (-82) (-65) (km_to_deg_lat 10) row_fuel hstep lat_fuel 24 pts hc h',
    ?_, ?_⟩
  · have hp := loop_pairwise cosd 45 (-82) (-65) (km_to_deg_lat 10) row_fuel hstep
      lat_fuel 24 pts hc h'
    refine hp.imp ?_
    intro a b hab
    rintro rfl
    rcases hab with h1 | ⟨-, h1⟩ <;> exact lt_irrefl _ h1
  · intro pts' h2
    exact Option.some.inj (h2.symm.trans h)

/-- Concrete instance of `ocean_grid_bounds_nodup` with a constant
positive cosine and one step of fuel in each loop. -/
theorem ocean_grid_bounds_nodup_witness :
    (∀ p ∈ [((24 : ℚ), (-82 : ℚ))], 24 ≤ p.1 ∧ p.1 ≤ 45 ∧ -82 ≤ p.2 ∧ p.2 ≤ -65) ∧
    List.Nodup [((24 : ℚ), (-82 : ℚ))] := by
  have hg : create_ocean_grid (fun _ => 1) 1 1 = some [(24, -82)] := by
    norm_num [create_ocean_grid, ocean_grid_loop, ocean_grid_row, km_to_deg_lon, km_to_deg_lat,
      pydiv, BOUNDS_NORTH, BOUNDS_SOUTH, BOUNDS_WEST, BOUNDS_EAST]
  have h := ocean_grid_bounds_nodup (fun _ => 1) 1 1 [(24, -82)]
    (fun l _ _ => one_pos) hg
  exact ⟨h.1, h.2.1⟩

/-- C9: the longitude-step computation with a zero cosine factor is
undefined (Python raises `ZeroDivisionError` before any quotient is
produced), modelled as `none`: the division by zero is never
performed. -/
theorem km_to_deg_lon_cos_zero (cosd : ℚ → ℚ) (km lat : ℚ) (h : cosd lat = 0) :
    km_to_deg_lon cosd km lat = none := by
  simp [km_to_deg_lon, pydiv, h]

/-- Concrete instance of `km_to_deg_lon_cos_zero` at latitude 90 with a
cosine that is exactly zero. -/
theorem km_to_deg_lon_cos_zero_witness :
    km_to_deg_lon (fun _ => 0) 10 90 = none :=
  km_to_deg_lon_cos_zero (fun _ => 0) 10 90 rfl

/-- C10: every coordinate emitted by the ocean grid generator satisfies
the hard-coded inclusion predicate `lon < -75 ∨ (lat > 35 ∧ lon < -70)`;
no coordinate outside this predicate appears in the grid. -/
theorem ocean_grid_inclusion_predicate (cosd : ℚ → ℚ) (lat_fuel row_fuel : ℕ)
    (pts : List (ℚ × ℚ)) (h : create_ocean_grid cosd lat_fuel row_fuel = some pts) :
    ∀ p ∈ pts, p.2 < -75 ∨ (35 < p.1 ∧ p.2 < -70) := by
  have h' : ocean_grid_loop cosd 45 (-82) (-65) (km_to_deg_lat 10) row_fuel 24 lat_fuel =
      some pts := by
    simpa [create_ocean_grid, BOUNDS_NORTH, BOUNDS_SOUTH, BOUNDS_WEST, BOUNDS_EAST] using h
  exact loop_pred cosd 45 (-82) (-65) (km_to_deg_lat 10) row_fuel lat_fuel 24 pts h'

/-- Concrete instance of `ocean_grid_inclusion_predicate`: with a
constant cosine of 2 the single emitted point satisfies the
predicate. -/
theorem ocean_grid_inclusion_predicate_witness :
    ((24 : ℚ), (-82 : ℚ)).2 < -75 ∨
      (35 < ((24 : ℚ), (-82 : ℚ)).1 ∧ ((24 : ℚ), (-82 : ℚ)).2 < -70) := by
  have hg : create_ocean_grid (fun _ => 2) 1 1 = some [(24, -82)] := by
    norm_num [create_ocean_grid, ocean_grid_loop, ocean_grid_row, km_to_deg_lon, km_to_deg_lat,
      pydiv, BOUNDS_NORTH, BOUNDS_SOUTH, BOUNDS_WEST, BOUNDS_EAST]
  exact ocean_grid_inclusion_predicate (fun _ => 2) 1 1 [(24, -82)] hg
    ((24 : ℚ), (-82 : ℚ)) (List.mem_singleton.mpr rfl)

/-! ## Aggregator: `ocean_wind_data` (app.py lines 167-198)

`get_wind_data` (app.py lines 113-161) performs two network calls; its
whole body is wrapped in `try/except` returning `None` on any failure,
so it is abstracted as `fetch : ℚ → ℚ → Option WindData` taking the
latitude and longitude.  The endpoint's own `try/except` (lines
170-201) is modelled by the `Except String` result type; the loop body
raises nothing, so the result is always `Except.ok`. -/

/-- The dict returned by a successful `get_wind_data` (app.py lines
152-157): `speed_kt` may be `None` (no currently-valid value) and so
may `direction`. -/
structure WindData where
  speed_kt : Option ℚ
  direction : Option ℚ
  lat : ℚ
  lon : ℚ

/-- The `properties` object of an emitted GeoJSON feature (app.py lines
186-191); all fields are JSON values and hence nullable. -/
structure FeatureProps where
  speed_kt : Option ℚ
  dir_from_deg : Option ℚ
  speed_mph : Option ℚ
  speed_kmh : Option ℚ

/-- One emitted GeoJSON feature (app.py lines 180-192): a point
geometry `[lon, lat]` plus properties. -/
structure Feature where
  lon : ℚ
  lat : ℚ
  props : FeatureProps

/-- The response document `{type: "FeatureCollection", features: [...]}`
(app.py lines 195-198). -/
structure FeatureCollection where
  features : List Feature

/-- Python's `enumerate`, starting at index `i`. -/
def enumerate_from {α : Type} (i : ℕ) : List α → List (ℕ × α)
  | [] => []
  | a :: l => (i, a) :: enumerate_from (i + 1) l

/-- The points for which a fetch is dispatched (app.py lines 175-176):
`enumerate(grid_points[:100])` restricted to indices with
`i % 5 == 0`. -/
def dispatched_points (grid_points : List (ℚ × ℚ)) : List (ℕ × (ℚ × ℚ)) :=
  (enumerate_from 0 (grid_points.take 100)).filter (fun ip => ip.1 % 5 == 0)

/-- Feature construction for one fetched point (app.py lines 179-192):
skipped when `wind_data['speed_kt'] is None`, otherwise the feature
carries the knot value, the (possibly null) direction, and the mph /
km/h values derived by the fixed multipliers. -/
def build_feature (lat lon : ℚ) (wd : WindData) : Option Feature :=
  match wd.speed_kt with
  | none => none
  | some kt =>
    some { lon := lon, lat := lat,
           props := { speed_kt := some kt, dir_from_deg := wd.direction,
                      speed_mph := some (kt * 1.15078), speed_kmh := some (kt * 1.852) } }

/-- The `wind_features` list accumulated by the endpoint loop (app.py
lines 172-193): for each dispatched point, fetch, then emit a feature
unless the fetch failed (`None`) or its speed is null. -/
def wind_features (fetch : ℚ → ℚ → Option WindData) (grid_points : List (ℚ × ℚ)) :
    List Feature :=
  (dispatched_points grid_points).filterMap (fun ip =>
    match fetch ip.2.1 ip.2.2 with
    | none => none
    | some wd => build_feature ip.2.1 ip.2.2 wd)

/-- The `/ocean-wind-data` endpoint body (app.py lines 167-201),
parameterised by the grid (produced by `create_ocean_grid` in the
source) and the per-point fetcher.  The assembly loop raises nothing,
so the `except` branch (HTTP 500) is unreachable and the result is
always `Except.ok`. -/
def ocean_wind_data (fetch : ℚ → ℚ → Option WindData) (grid_points : List (ℚ × ℚ)) :
    Except String FeatureCollection :=
  Except.ok { features := wind_features fetch grid_points }

/-- Sample fetcher: every point fails (network error / non-200). -/
def fetch_none_sample : ℚ → ℚ → Option WindData := fun _ _ => none

/-- Sample fetcher: speed 10 kt resolved, direction unresolved. -/
def fetch_dirless_sample : ℚ → ℚ → Option WindData :=
  fun la lo => some ⟨some 10, none, la, lo⟩

/-! ## Helper lemmas about dispatch -/

/-- Filtering `enumerate` on an index predicate keeps as many elements
as filtering the corresponding index range. -/
theorem enumerate_filter_length :
    ∀ (l : List (ℚ × ℚ)) (i : ℕ),
      ((enumerate_from i l).filter (fun ip => ip.1 % 5 == 0)).length =
        ((List.range' i l.length).filter (fun k => k % 5 == 0)).length := by
  intro l
  induction l with
  | nil => intro i; rfl
  | cons a l ih =>
    intro i
    show ((⟨i, a⟩ :: enumerate_from (i + 1) l).filter (fun ip => ip.1 % 5 == 0)).length = _
    simp only [List.length_cons, List.range'_succ, List.filter_cons]
    by_cases hi : (i % 5 == 0) = true
    · simp only [hi]
      simp [ih (i + 1)]
    · simp only [Bool.not_eq_true] at hi
      simp only [hi]
      simp [ih (i + 1)]

/-- At most 20 of the first `n ≤ 100` indices are multiples of 5. -/
theorem range'_filter_five_le (n : ℕ) (hn : n ≤ 100) :
    ((List.range' 0 n).filter (fun k => k % 5 == 0)).length ≤ 20 := by
  have hsplit : List.range' 0 n ++ List.range' n (100 - n) = List.range' 0 100 := by
    have := List.range'_append 0 n (100 - n) 1
    simpa [Nat.sub_add_cancel hn] using this
  have h100 : ((List.range' 0 100).filter (fun k => k % 5 == 0)).length = 20 := by decide
  calc ((List.range' 0 n).filter (fun k => k % 5 == 0)).length
      ≤ ((List.range' 0 n).filter (fun k => k % 5 == 0)).length +
        ((List.range' n (100 - n)).filter (fun k => k % 5 == 0)).length := Nat.le_add_right _ _
    _ = ((List.range' 0 100).filter (fun k => k % 5 == 0)).length := by
        rw [← hsplit, List.filter_append, List.length_append]
    _ = 20 := h100

/-- `enumerate` projects back to the original list. -/
theorem enumerate_map_snd {α : Type} : ∀ (l : List α) (i : ℕ),
    (enumerate_from i l).map Prod.snd = l := by
  intro l
  induction l with
  | nil => intro i; rfl
  | cons a l ih => intro i; simp [enumerate_from, ih (i + 1)]

/-! ## Claim theorems: aggregation -/

/-- C4: the aggregation run takes at most the point budget of 100
points in generation order, dispatches a fetch only for every 5th of
those (indices `i` with `i % 5 = 0`), the dispatched points are a
subsequence of the first 100 grid points, and at most 20 fetches are
dispatched per run. -/
theorem dispatch_budget_stride_bound (grid_points : List (ℚ × ℚ)) :
    (dispatched_points grid_points).length ≤ 20 ∧
    List.Sublist ((dispatched_points grid_points).map Prod.snd) (grid_points.take 100) ∧
    (∀ ip ∈ dispatched_points grid_points, ip.1 % 5 = 0) := by
  refine ⟨?_, ?_, ?_⟩
  · rw [dispatched_points, enumerate_filter_length (grid_points.take 100) 0]
    refine range'_filter_five_le (grid_points.take 100).length ?_
    rw [List.length_take]
    exact min_le_left _ _
  · have hsub := List.filter_sublist (p := fun ip : ℕ × (ℚ × ℚ) => ip.1 % 5 == 0)
      (enumerate_from 0 (grid_points.take 100))
    have := hsub.map Prod.snd
    rwa [enumerate_map_snd (grid_points.take 100) 0] at this
  · intro ip hip
    have := List.of_mem_filter hip
    simpa using this

/-- Concrete instance of `dispatch_budget_stride_bound` on a 7-point
grid: indices 0 and 5 are dispatched. -/
theorem dispatch_budget_stride_bound_witness :
    (dispatched_points [(1, 1), (2, 2), (3, 3), (4, 4), (5, 5), (6, 6), (7, 7)]).length ≤ 20 ∧
    ∀ ip ∈ dispatched_points [(1, 1), (2, 2), (3, 3), (4, 4), (5, 5), (6, 6), (7, 7)],
      ip.1 % 5 = 0 := by
  have h := dispatch_budget_stride_bound [(1, 1), (2, 2), (3, 3), (4, 4), (5, 5), (6, 6), (7, 7)]
  exact ⟨h.1, h.2.2⟩

/-- C5: per-point fetch failures never propagate to the caller: if
every fetch fails (or every fetched sample has a null speed), the run
returns `Except.ok` on a FeatureCollection with zero features — no
error. -/
theorem all_failed_empty_collection (fetch : ℚ → ℚ → Option WindData)
    (grid_points : List (ℚ × ℚ))
    (h : ∀ lat lon wd, fetch lat lon = some wd → wd.speed_kt = none) :
    ocean_wind_data fetch grid_points = Except.ok ⟨[]⟩ := by
  unfold ocean_wind_data
  have : wind_features fetch grid_points = [] := by
    unfold wind_features
    rw [List.filterMap_eq_nil_iff]
    intro ip _
    cases hf : fetch ip.2.1 ip.2.2 with
    | none => rfl
    | some wd =>
      have hs := h ip.2.1 ip.2.2 wd hf
      simp [build_feature, hs]
  rw [this]

/-- Concrete instance of `all_failed_empty_collection`: a run over one
grid point where the fetch fails returns the empty FeatureCollection
without error. -/
theorem all_failed_empty_collection_witness :
    ocean_wind_data fetch_none_sample [(24, -82)] = Except.ok ⟨[]⟩ :=
  all_failed_empty_collection fetch_none_sample [(24, -82)]
    (fun _ _ _ hw => Option.noConfusion hw)

/-- C6: every emitted feature has a non-null `speed_kt`, with
`speed_mph` and `speed_kmh` always present and derived from it by the
multipliers 1.15078 and 1.852; and `dir_from_deg` can be null in an
emitted feature even though `speed_kt` is present. -/
theorem emitted_feature_fields :
    (∀ (fetch : ℚ → ℚ → Option WindData) (grid_points : List (ℚ × ℚ)) (f : Feature),
      f ∈ wind_features fetch grid_points →
      ∃ v, f.props.speed_kt = some v ∧ f.props.speed_mph = some (v * 1.15078) ∧
        f.props.speed_kmh = some (v * 1.852)) ∧
    (∃ (fetch : ℚ → ℚ → Option WindData) (grid_points : List (ℚ × ℚ)) (f : Feature),
      f ∈ wind_features fetch grid_points ∧ f.props.dir_from_deg = none ∧
        f.props.speed_kt ≠ none) := by
  constructor
  · intro fetch grid_points f hf
    unfold wind_features at hf
    obtain ⟨ip, -, hip⟩ := List.mem_filterMap.mp hf
    revert hip
    cases hfe : fetch ip.2.1 ip.2.2 with
    | none => intro hip; cases hip
    | some wd =>
      intro hip
      simp only at hip
      unfold build_feature at hip
      split at hip
      · cases hip
      · rename_i kt hs
        have hfeq := Option.some.inj hip
        exact ⟨kt, by rw [← hfeq], by rw [← hfeq], by rw [← hfeq]⟩
  · refine ⟨fetch_dirless_sample, [(24, -82)],
      ⟨-82, 24, ⟨some 10, none, some (10 * 1.15078), some (10 * 1.852)⟩⟩, ?_, rfl, ?_⟩
    · show _ ∈ wind_features fetch_dirless_sample [(24, -82)]
      have : wind_features fetch_dirless_sample [(24, -82)] =
          [⟨-82, 24, ⟨some 10, none, some (10 * 1.15078), some (10 * 1.852)⟩⟩] := rfl
      rw [this]
      exact List.mem_singleton.mpr rfl
    · simp

/-- Concrete instance of `emitted_feature_fields`: the single feature
emitted for a 10-kt dirless sample has the derived mph and km/h
values. -/
theorem emitted_feature_fields_witness :
    ∃ v, (Feature.mk (-82) 24
        ⟨some 10, none, some (10 * 1.15078), some (10 * 1.852)⟩).props.speed_kt = some v ∧
      (Feature.mk (-82) 24
        ⟨some 10, none, some (10 * 1.15078), some (10 * 1.852)⟩).props.speed_mph =
        some (v * 1.15078) ∧
      (Feature.mk (-82) 24
        ⟨some 10, none, some (10 * 1.15078), some (10 * 1.852)⟩).props.speed_kmh =
        some (v * 1.852) :=
  emitted_feature_fields.1 fetch_dirless_sample [(24, -82)]
    ⟨-82, 24, ⟨some 10, none, some (10 * 1.15078), some (10 * 1.852)⟩⟩
    (by
      have : wind_features fetch_dirless_sample [(24, -82)] =
          [⟨-82, 24, ⟨some 10, none, some (10 * 1.15078), some (10 * 1.852)⟩⟩] := rfl
      rw [this]
      exact List.mem_singleton.mpr rfl)

end WindApp
